import Mathlib

/-!
Verification of the weather/solar forecasting backend.

The development shallowly embeds the backend's pure logic:
time series are association lists of (hour, value) pairs with rational
values, dataframes are lists of rows, and the provider-fallback services
are functions over abstract provider oracles.  External HTTP providers
and the trained scikit-learn regressors are modelled as abstract function
parameters; everything the theorems speak about (blending arithmetic,
fallback control flow, deduplication, validation, formatting) is
translated directly from the backend source.
-/

namespace Backend

/-! ## services/ml.py -/

/-- A time-indexed series: pandas `Series` with a datetime index,
timestamps modelled as hours (ℕ), values as ℚ. -/
abbrev TSeries := List (ℕ × ℚ)

/-- The timestamps of a series, in index order. -/
def tsTimes (s : TSeries) : List ℕ := s.map Prod.fst

/-- Value at a timestamp (first occurrence), i.e. pandas label lookup. -/
def tsLookup (s : TSeries) (t : ℕ) : Option ℚ :=
  (s.find? (fun p => p.1 == t)).map Prod.snd

/-- Insert into a sorted list of timestamps (ascending). -/
def insortNat (x : ℕ) : List ℕ → List ℕ
  | [] => [x]
  | y :: ys => if x ≤ y then x :: y :: ys else y :: insortNat x ys

/-- Ascending sort of timestamps: models `Index.sort_values()`. -/
def sortNat : List ℕ → List ℕ
  | [] => []
  | x :: xs => insortNat x (sortNat xs)

/-- `blend_ml_and_api` (services/ml.py, lines 276-325): if the two time
indexes coincide, blend positionally; otherwise align on the sorted
intersection of the indexes, then blend with weight `alpha` on the ML
side and `1 - alpha` on the API side. -/
def blend_ml_and_api (ml_series api_series : TSeries) (alpha : ℚ) : TSeries :=
  if tsTimes ml_series = tsTimes api_series then
    (ml_series.zip api_series).map
      (fun p => (p.1.1, alpha * p.1.2 + (1 - alpha) * p.2.2))
  else
    let common_time :=
      sortNat ((tsTimes ml_series).filter (fun t => (tsTimes api_series).contains t))
    common_time.map (fun t =>
      (t, alpha * ((tsLookup ml_series t).getD 0)
        + (1 - alpha) * ((tsLookup api_series t).getD 0)))

/-- Weight computation of `train_ensemble_model` (services/ml.py,
lines 155-165): normalise the two training scores when their sum is
positive, otherwise weight equally. -/
def ensemble_weights (rf_score gb_score : ℚ) : ℚ × ℚ :=
  let total_score := rf_score + gb_score
  if total_score > 0 then (rf_score / total_score, gb_score / total_score)
  else (1 / 2, 1 / 2)

/-- Weight pair of the single-model fallback branch of
`train_ensemble_model` (services/ml.py, line 190). -/
def single_model_weights : ℚ × ℚ := (1, 0)

/-! ## main.py: create_ml_forecast_df -/

/-- One dataframe column paired with the time column: rows are
(time, optional value); `none` is a NaN cell. -/
abbrev ColumnFrame := List (ℕ × Option ℚ)

/-- `historical_df.set_index("time")[target_column].dropna()`. -/
def clean_series (historical_df : ColumnFrame) : TSeries :=
  historical_df.filterMap (fun p => p.2.map (fun v => (p.1, v)))

/-- `create_ml_forecast_df` (main.py, lines 120-155).  The model
training and recursive forecasting (`train_local_model` /
`forecast_with_model`) are abstract here and passed as `trainPredict`;
`none` models the branch where training raises and the function falls
back to the API forecast. -/
def create_ml_forecast_df (trainPredict : TSeries → ℕ → Option (List ℚ))
    (historical_df forecast_df : ColumnFrame) : ColumnFrame :=
  if historical_df.isEmpty || forecast_df.isEmpty then []
  else
    let historical_series := clean_series historical_df
    if historical_series.length < 48 then forecast_df
    else
      match trainPredict historical_series forecast_df.length with
      | some predictions => (forecast_df.map Prod.fst).zip (predictions.map some)
      | none => forecast_df

/-! ## Helper lemmas about the sort and lookup auxiliaries -/

theorem insortNat_perm (x : ℕ) (l : List ℕ) : (insortNat x l).Perm (x :: l) := by
  induction l with
  | nil => exact List.Perm.refl _
  | cons y ys ih =>
    by_cases h : x ≤ y
    · simp [insortNat, h]
    · rw [insortNat, if_neg h]
      exact (ih.cons y).trans (List.Perm.swap x y ys)

theorem sortNat_perm (l : List ℕ) : (sortNat l).Perm l := by
  induction l with
  | nil => exact List.Perm.refl _
  | cons x xs ih => exact (insortNat_perm x (sortNat xs)).trans (ih.cons x)

theorem insortNat_sorted {x : ℕ} {l : List ℕ} (h : l.Sorted (· ≤ ·)) :
    (insortNat x l).Sorted (· ≤ ·) := by
  induction l with
  | nil => simp [insortNat]
  | cons y ys ih =>
    by_cases hxy : x ≤ y
    · rw [insortNat, if_pos hxy]
      refine List.sorted_cons.mpr ⟨?_, h⟩
      intro b hb
      rcases List.mem_cons.mp hb with hb | hb
      · exact hb ▸ hxy
      · exact hxy.trans (List.rel_of_sorted_cons h b hb)
    · rw [insortNat, if_neg hxy]
      refine List.sorted_cons.mpr ⟨?_, ih h.of_cons⟩
      intro b hb
      have hb' : b ∈ x :: ys := (insortNat_perm x ys).mem_iff.mp hb
      rcases List.mem_cons.mp hb' with hb' | hb'
      · exact hb' ▸ Nat.le_of_not_le hxy
      · exact List.rel_of_sorted_cons h b hb'

theorem sortNat_sorted (l : List ℕ) : (sortNat l).Sorted (· ≤ ·) := by
  induction l with
  | nil => simp [sortNat]
  | cons x xs ih => exact insortNat_sorted ih

theorem tsLookup_mem_times {s : TSeries} {t : ℕ} {v : ℚ}
    (h : tsLookup s t = some v) : t ∈ tsTimes s := by
  induction s with
  | nil => simp [tsLookup] at h
  | cons p rest ih =>
    cases hpt : (p.1 == t) with
    | true =>
      have : p.1 = t := eq_of_beq hpt
      simp [tsTimes, this]
    | false =>
      simp only [tsLookup, List.find?_cons, hpt] at h
      exact List.mem_cons_of_mem _ (ih h)

theorem tsLookup_map_pair {f : ℕ → ℚ} {l : List ℕ} {t : ℕ} (h : t ∈ l) :
    tsLookup (l.map (fun u => (u, f u))) t = some (f t) := by
  induction l with
  | nil => cases h
  | cons u rest ih =>
    cases hut : (u == t) with
    | true =>
      have : u = t := eq_of_beq hut
      subst this
      simp [tsLookup, List.find?_cons]
    | false =>
      have hne : u ≠ t := by simpa using hut
      have h' : t ∈ rest := by
        rcases List.mem_cons.mp h with h | h
        · exact absurd h.symm hne
        · exact h
      simp only [List.map_cons, tsLookup, List.find?_cons, hut]
      exact ih h'

theorem tsLookup_zip_blend (alpha : ℚ) :
    ∀ (ml api : TSeries), tsTimes ml = tsTimes api →
      ∀ {t : ℕ} {vm va : ℚ}, tsLookup ml t = some vm → tsLookup api t = some va →
      tsLookup ((ml.zip api).map
          (fun p => (p.1.1, alpha * p.1.2 + (1 - alpha) * p.2.2))) t
        = some (alpha * vm + (1 - alpha) * va) := by
  intro ml
  induction ml with
  | nil =>
    intro api _ t vm va hm _
    simp [tsLookup] at hm
  | cons m ml' ih =>
    intro api htimes t vm va hm ha
    cases api with
    | nil => simp [tsTimes] at htimes
    | cons a api' =>
      have h1 : m.1 = a.1 := by
        have := congrArg (List.head? ·) htimes
        simpa [tsTimes] using this
      have h2 : tsTimes ml' = tsTimes api' := by
        have := congrArg (List.tail ·) htimes
        simpa [tsTimes] using this
      cases hmt : (m.1 == t) with
      | true =>
        have hat : (a.1 == t) = true := h1 ▸ hmt
        have hm1 : m.2 = vm := by
          simp only [tsLookup, List.find?_cons, hmt] at hm
          simpa using hm
        have ha1 : a.2 = va := by
          simp only [tsLookup, List.find?_cons, hat] at ha
          simpa using ha
        simp only [List.zip_cons_cons, List.map_cons, tsLookup,
          List.find?_cons, hmt]
        simp [hm1, ha1]
      | false =>
        have hat : (a.1 == t) = false := h1 ▸ hmt
        simp only [tsLookup, List.find?_cons, hmt] at hm
        simp only [tsLookup, List.find?_cons, hat] at ha
        simp only [List.zip_cons_cons, List.map_cons, tsLookup,
          List.find?_cons, hmt]
        exact ih api' h2 hm ha

theorem zip_blend_self (s : TSeries) :
    (s.zip s).map (fun p => (p.1.1, (3 / 5 : ℚ) * p.1.2 + (1 - 3 / 5) * p.2.2)) = s := by
  induction s with
  | nil => rfl
  | cons p rest ih =>
    have hp : ((3 / 5 : ℚ) * p.2 + (1 - 3 / 5) * p.2) = p.2 := by ring
    simp [List.zip_cons_cons, ih, hp]

/-! ## Claim theorems for services/ml.py and create_ml_forecast_df -/

/-- C1: for every timestamp common to both the model series and the API
series, the blended value equals 0.6 times the model value plus 0.4
times the API value (`blend_ml_and_api` with alpha = 0.6); and if the
two series are identical, the blended series equals that series. -/
theorem blend_ml_and_api_identity :
    (∀ (ml_series api_series : TSeries) (t : ℕ) (vm va : ℚ),
        (tsTimes ml_series).Nodup → (tsTimes api_series).Nodup →
        tsLookup ml_series t = some vm → tsLookup api_series t = some va →
        tsLookup (blend_ml_and_api ml_series api_series (3 / 5)) t
          = some ((3 / 5) * vm + (2 / 5) * va)) ∧
    (∀ s : TSeries, blend_ml_and_api s s (3 / 5) = s) := by
  constructor
  · intro ml api t vm va _ _ hm ha
    simp only [blend_ml_and_api]
    by_cases heq : tsTimes ml = tsTimes api
    · rw [if_pos heq]
      have h := tsLookup_zip_blend (3 / 5) ml api heq hm ha
      rw [h]
      norm_num
    · rw [if_neg heq]
      have htm : t ∈ tsTimes ml := tsLookup_mem_times hm
      have hta : t ∈ tsTimes api := tsLookup_mem_times ha
      have hmem : t ∈ sortNat ((tsTimes ml).filter fun u => (tsTimes api).contains u) := by
        refine (sortNat_perm _).mem_iff.mpr ?_
        simp [List.mem_filter, htm, hta]
      have hmap := @tsLookup_map_pair
        (fun u => (3 / 5) * ((tsLookup ml u).getD 0)
          + (1 - 3 / 5) * ((tsLookup api u).getD 0)) _ t hmem
      rw [hmap]
      simp only [hm, ha, Option.getD_some]
      norm_num
  · intro s
    simp only [blend_ml_and_api, if_pos trivial]
    exact zip_blend_self s

/-- C1 witness: concrete instance of the blending identity. -/
theorem blend_ml_and_api_identity_witness :
    tsLookup (blend_ml_and_api [(1, 2)] [(1, 4)] (3 / 5)) 1
      = some ((3 / 5) * 2 + (2 / 5) * 4) :=
  blend_ml_and_api_identity.1 [(1, 2)] [(1, 4)] 1 2 4
    (by decide) (by decide) rfl rfl

/-- C2 counterexample: with an empty historical dataframe (0 clean
points, hence fewer than 48) and a non-empty API forecast,
`create_ml_forecast_df` returns an empty frame, not the API forecast. -/
theorem create_ml_forecast_df_empty_hist_cex :
    (clean_series ([] : ColumnFrame)).length < 48 ∧
    create_ml_forecast_df (fun _ _ => none) [] [(0, some 1)] = [] ∧
    ([] : ColumnFrame) ≠ [(0, some 1)] := by
  refine ⟨by simp [clean_series], by simp [create_ml_forecast_df], by simp⟩

/-- C2 amended: provided both input frames are non-empty, a variable
whose historical series has fewer than 48 clean points skips training
and gets the raw API forecast back exactly. -/
theorem create_ml_forecast_df_short_circuit
    (trainPredict : TSeries → ℕ → Option (List ℚ))
    (historical_df forecast_df : ColumnFrame)
    (h1 : historical_df ≠ []) (h2 : forecast_df ≠ [])
    (h3 : (clean_series historical_df).length < 48) :
    create_ml_forecast_df trainPredict historical_df forecast_df = forecast_df := by
  have hb : (historical_df.isEmpty || forecast_df.isEmpty) = false := by
    simp [List.isEmpty_iff, h1, h2]
  simp [create_ml_forecast_df, hb, h3]

/-- C2 witness: concrete instance of the short-circuit behaviour. -/
theorem create_ml_forecast_df_short_circuit_witness :
    create_ml_forecast_df (fun _ _ => none) [(0, some 1)] [(1, some 2)]
      = [(1, some 2)] :=
  create_ml_forecast_df_short_circuit (fun _ _ => none) [(0, some 1)] [(1, some 2)]
    (by simp) (by simp) (by simp [clean_series])

/-- C3 counterexample: with training scores -2 and 1 (a successful run
where the scores are not both non-positive), the code weights the models
equally instead of by normalised score, because its guard tests the sign
of the score sum, not of each score. -/
theorem ensemble_weights_claim_cex :
    ¬ ((-2 : ℚ) ≤ 0 ∧ (1 : ℚ) ≤ 0) ∧
    ensemble_weights (-2) 1 = (1 / 2, 1 / 2) ∧
    ((1 : ℚ) / 2) ≠ (-2) / ((-2) + 1) := by
  refine ⟨by norm_num, ?_, by norm_num⟩
  have h : ¬ ((-2 : ℚ) + 1 > 0) := by norm_num
  simp [ensemble_weights, h]

/-- C3 amended: weights are the scores normalised by their sum whenever
the sum is positive, and equal (0.5 each) whenever the sum is
non-positive. -/
theorem ensemble_weights_amended (rf_score gb_score : ℚ) :
    (rf_score + gb_score > 0 →
      ensemble_weights rf_score gb_score =
        (rf_score / (rf_score + gb_score), gb_score / (rf_score + gb_score))) ∧
    (rf_score + gb_score ≤ 0 →
      ensemble_weights rf_score gb_score = (1 / 2, 1 / 2)) := by
  constructor
  · intro h
    simp [ensemble_weights, h]
  · intro h
    simp [ensemble_weights, not_lt.mpr h]

/-- C3 witness: with scores 1 and 1 the weights are the normalised pair. -/
theorem ensemble_weights_amended_witness :
    ensemble_weights 1 1 = ((1 : ℚ) / (1 + 1), (1 : ℚ) / (1 + 1)) :=
  (ensemble_weights_amended 1 1).1 (by norm_num)

/-- C10: the ensemble weight pair always sums to exactly 1 (normalised
pair when the score sum is positive, equal weights otherwise, and
(1.0, 0.0) in the single-model fallback), but the individual weights can
leave [0, 1]: a negative score with a positive sum yields one weight
below 0 and the other above 1. -/
theorem ensemble_weights_sum_one :
    (∀ rf_score gb_score : ℚ,
      (ensemble_weights rf_score gb_score).1
        + (ensemble_weights rf_score gb_score).2 = 1) ∧
    single_model_weights.1 + single_model_weights.2 = 1 ∧
    ((ensemble_weights 3 (-1)).2 < 0 ∧ 1 < (ensemble_weights 3 (-1)).1) := by
  refine ⟨?_, by norm_num [single_model_weights], ?_⟩
  · intro rf gb
    by_cases h : rf + gb > 0
    · have hne : rf + gb ≠ 0 := ne_of_gt h
      simp only [ensemble_weights, if_pos h]
      rw [div_add_div_same, div_self hne]
    · simp only [ensemble_weights, if_neg h]
      norm_num
  · have h : (3 : ℚ) + (-1) > 0 := by norm_num
    simp only [ensemble_weights, if_pos h]
    norm_num

/-! ## services/weather.py and main.py response conversion -/

/-- A dataframe row as produced by `fetch_historical` / `fetch_forecast`:
a timestamp plus the seven optional weather columns (a `none` cell is an
upstream-missing value, kept as NaN rather than dropped). -/
structure WeatherRow where
  time : ℕ
  temperature_2m : Option ℚ
  relativehumidity_2m : Option ℚ
  shortwave_radiation : Option ℚ
  cloudcover : Option ℚ
  precipitation : Option ℚ
  pressure_msl : Option ℚ
  wind_speed_10m : Option ℚ

/-- `TimeSeriesPoint` of schemas.py. -/
structure TimeSeriesPoint where
  time : ℕ
  temperature_2m : Option ℚ
  relativehumidity_2m : Option ℚ
  shortwave_radiation : Option ℚ
  cloudcover : Option ℚ
  precipitation : Option ℚ
  pressure_msl : Option ℚ
  wind_speed_10m : Option ℚ

/-- `dataframe_to_timeseries` (main.py, lines 96-117): one point per
dataframe row, in row order, copying the time and the seven fields. -/
def dataframe_to_timeseries (df : List WeatherRow) : List TimeSeriesPoint :=
  df.map (fun row =>
    ⟨row.time, row.temperature_2m, row.relativehumidity_2m,
      row.shortwave_radiation, row.cloudcover, row.precipitation,
      row.pressure_msl, row.wind_speed_10m⟩)

/-- Time-column processing of `fetch_historical` / `fetch_forecast`
(services/weather.py, lines 84-120 and 194-226) on one upstream payload:
reject an empty time array, drop unparseable timestamps
(`dropna(subset=["time"])`), reject if nothing remains, otherwise sort
ascending (`sort_values("time")`).  `none` means the payload is not
accepted (the loop continues with the next variable set). -/
def fetch_series_times (hourly_time : List (Option ℕ)) : Option (List ℕ) :=
  if hourly_time.isEmpty then none
  else
    let parsed := hourly_time.filterMap id
    if parsed.isEmpty then none
    else some (sortNat parsed)

/-- C4 counterexample: an accepted upstream payload whose time array
repeats a timestamp yields an output series with duplicate timestamps;
the fetchers sort but never deduplicate. -/
theorem fetch_series_times_dup_cex :
    fetch_series_times [some 5, some 5] = some [5, 5] ∧
    ¬ ([5, 5] : List ℕ).Nodup := by
  exact ⟨rfl, by decide⟩

/-- C4 amended: every accepted payload yields a non-empty series sorted
in non-decreasing time order, and the timestamps are unique and strictly
increasing provided the payload's parsed time array has no duplicates;
`dataframe_to_timeseries` preserves row order and timestamps, so each
emitted series carries exactly its dataframe's time column. -/
theorem fetch_series_times_sorted :
    (∀ (hourly_time : List (Option ℕ)) (ts : List ℕ),
        fetch_series_times hourly_time = some ts →
        ts.Sorted (· ≤ ·) ∧ ts ≠ [] ∧
        ((hourly_time.filterMap id).Nodup →
          ts.Nodup ∧ ts.Sorted (· < ·))) ∧
    (∀ df : List WeatherRow,
        (dataframe_to_timeseries df).map TimeSeriesPoint.time
          = df.map WeatherRow.time) := by
  constructor
  · intro hourly_time ts h
    simp only [fetch_series_times] at h
    by_cases h1 : hourly_time.isEmpty
    · simp [h1] at h
    · rw [if_neg h1] at h
      by_cases h2 : (hourly_time.filterMap id).isEmpty
      · simp [h2] at h
      · rw [if_neg h2] at h
        have hts : ts = sortNat (hourly_time.filterMap id) := by
          exact (Option.some.injEq _ _ ▸ h).symm
        subst hts
        refine ⟨sortNat_sorted _, ?_, ?_⟩
        · intro hc
          have := (sortNat_perm (hourly_time.filterMap id)).symm.length_eq
          rw [hc] at this
          simp only [List.length_nil] at this
          exact h2 (List.isEmpty_iff.mpr (List.length_eq_zero.mp this))
        · intro hnd
          have hnd' : (sortNat (hourly_time.filterMap id)).Nodup :=
            (sortNat_perm _).symm.nodup hnd
          exact ⟨hnd', (sortNat_sorted _).lt_of_le hnd'⟩
  · intro df
    simp [dataframe_to_timeseries]

/-- C4 witness: a concrete accepted payload, with duplicate-free input
times, yields a strictly sorted duplicate-free series. -/
theorem fetch_series_times_sorted_witness :
    ([1, 3] : List ℕ).Sorted (· ≤ ·) ∧ ([1, 3] : List ℕ).Nodup ∧
    ([1, 3] : List ℕ).Sorted (· < ·) := by
  have h := fetch_series_times_sorted.1 [some 3, some 1] [1, 3] rfl
  have h2 := h.2.2 (by decide)
  exact ⟨h.1, h2.1, h2.2⟩

/-! ## schemas.py and the /api/data route (main.py) -/

/-- The two error classes the handler distinguishes: `ValueError` is
mapped to a client error, anything else to a server error. -/
inductive PyError
  | valueError
  | otherError

/-- Outcome of one request to the data endpoint. -/
inductive Outcome
  | ok
  | clientError400
  | serverError500

/-- `LocationRequest` of schemas.py. -/
structure LocationRequest where
  location : Option String
  latitude : Option ℚ
  longitude : Option ℚ
  historical_days : ℤ
  forecast_days : ℤ

/-- Python truthiness of the optional location text: `None` and the
empty string are falsy. -/
def strTruthy : Option String → Bool
  | none => false
  | some s => !(s == "")

/-- Validation in `LocationRequest.__init__` (schemas.py, lines 15-19):
reject when no truthy location text is given and the coordinate pair is
incomplete. -/
def locationRequestValid (r : LocationRequest) : Bool :=
  !(!strTruthy r.location && (r.latitude.isNone || r.longitude.isNone))

/-- Result dictionary of `geocode_location` (services/geocode.py). -/
structure GeoResult where
  name : String
  country : Option String
  latitude : ℚ
  longitude : ℚ
  elevation : Option ℚ

/-- The outbound collaborators of the route, as black boxes: geocoding
may raise (`Except.error`), the forecast fetch may raise; the historical
fetch and reverse geocoding are absorbed by local try/except blocks in
the handler and so never influence the outcome class. -/
structure RouteEnv where
  geocode : String → Except PyError GeoResult
  fetch_forecast : ℚ → ℚ → ℤ → Except PyError (List WeatherRow)

/-- Steps 3-7 of `get_weather_data` (main.py, lines 217-281) after
coordinates are known: a raised error propagates to the outer handler
(ValueError to 400, anything else to 500); an empty forecast raises
ValueError (line 222); otherwise the ML/blending steps catch all their
own exceptions and the request succeeds. -/
def forecast_and_assemble (env : RouteEnv) (lat lon : ℚ)
    (r : LocationRequest) : Outcome :=
  match env.fetch_forecast lat lon r.forecast_days with
  | Except.error PyError.valueError => Outcome.clientError400
  | Except.error PyError.otherError => Outcome.serverError500
  | Except.ok forecast_df =>
      if forecast_df.isEmpty then Outcome.clientError400 else Outcome.ok

/-- `get_weather_data` (main.py, lines 158-293): request validation,
then the coordinate branch (reverse geocoding failures absorbed), the
location-text branch (geocoding errors re-raised), or the ValueError of
line 203; the outer handler maps ValueError to 400 and any other
exception to 500. -/
def get_weather_data (env : RouteEnv) (r : LocationRequest) : Outcome :=
  if !(locationRequestValid r) then Outcome.clientError400
  else
    match r.latitude, r.longitude with
    | some lat, some lon => forecast_and_assemble env lat lon r
    | _, _ =>
      if strTruthy r.location then
        match env.geocode (r.location.getD "") with
        | Except.error PyError.valueError => Outcome.clientError400
        | Except.error PyError.otherError => Outcome.serverError500
        | Except.ok g => forecast_and_assemble env g.latitude g.longitude r
      else Outcome.clientError400

/-- An environment in which every outbound call succeeds. -/
def happyEnv : RouteEnv where
  geocode := fun _ => Except.ok ⟨"Pune", some "India", 18, 73, none⟩
  fetch_forecast := fun _ _ _ =>
    Except.ok [⟨0, some 20, none, none, none, none, none, none⟩]

/-- C5 counterexample: a request supplying both the location text and a
complete coordinate pair is accepted and processed (coordinates win),
not rejected, so the endpoint requires at least one of the two rather
than exactly one. -/
theorem get_weather_data_both_accepted_cex :
    strTruthy (some "Pune") = true ∧
    get_weather_data happyEnv ⟨some "Pune", some 1, some 2, 60, 7⟩
      = Outcome.ok := by
  exact ⟨rfl, rfl⟩

/-- C5 amended: a request must contain at least one of the free-text
location or the complete coordinate pair; supplying neither (or an
incomplete pair with no location text) is rejected with a client-error
(400) response, a ValueError from a step maps to 400, and any other
unexpected failure maps to a generic server-error (500) response. -/
theorem get_weather_data_validation (env : RouteEnv) (r : LocationRequest) :
    (strTruthy r.location = false →
      (r.latitude = none ∨ r.longitude = none) →
      get_weather_data env r = Outcome.clientError400) ∧
    (∀ lat lon, r.latitude = some lat → r.longitude = some lon →
      env.fetch_forecast lat lon r.forecast_days = Except.error PyError.otherError →
      get_weather_data env r = Outcome.serverError500) ∧
    (∀ lat lon, r.latitude = some lat → r.longitude = some lon →
      env.fetch_forecast lat lon r.forecast_days = Except.error PyError.valueError →
      get_weather_data env r = Outcome.clientError400) ∧
    (strTruthy r.location = true → (r.latitude = none ∨ r.longitude = none) →
      env.geocode (r.location.getD "") = Except.error PyError.otherError →
      get_weather_data env r = Outcome.serverError500) ∧
    (strTruthy r.location = true → (r.latitude = none ∨ r.longitude = none) →
      env.geocode (r.location.getD "") = Except.error PyError.valueError →
      get_weather_data env r = Outcome.clientError400) := by
  refine ⟨?_, ?_, ?_, ?_, ?_⟩
  · intro hloc hcoord
    have hv : locationRequestValid r = false := by
      rcases hcoord with h | h <;>
        simp [locationRequestValid, hloc, h]
    simp [get_weather_data, hv]
  · intro lat lon hlat hlon hf
    have hv : locationRequestValid r = true := by
      simp [locationRequestValid, hlat, hlon]
    simp [get_weather_data, hv, hlat, hlon, forecast_and_assemble, hf]
  · intro lat lon hlat hlon hf
    have hv : locationRequestValid r = true := by
      simp [locationRequestValid, hlat, hlon]
    simp [get_weather_data, hv, hlat, hlon, forecast_and_assemble, hf]
  · intro hloc hcoord hg
    have hv : locationRequestValid r = true := by
      simp [locationRequestValid, hloc]
    rcases hcoord with h | h <;>
      · cases hlat : r.latitude <;> cases hlon : r.longitude <;>
          simp_all [get_weather_data, hv, hloc, hg]
  · intro hloc hcoord hg
    have hv : locationRequestValid r = true := by
      simp [locationRequestValid, hloc]
    rcases hcoord with h | h <;>
      · cases hlat : r.latitude <;> cases hlon : r.longitude <;>
          simp_all [get_weather_data, hv, hloc, hg]

/-- C5 witness: the empty request is rejected with the client error. -/
theorem get_weather_data_validation_witness :
    get_weather_data happyEnv ⟨none, none, none, 60, 7⟩
      = Outcome.clientError400 :=
  (get_weather_data_validation happyEnv ⟨none, none, none, 60, 7⟩).1
    rfl (Or.inl rfl)

/-! ## services/geocode.py -/

/-- Python `str.strip()`: drop whitespace from both ends. -/
def pyStrip (s : String) : String :=
  ⟨((s.data.dropWhile Char.isWhitespace).reverse.dropWhile Char.isWhitespace).reverse⟩

/-- `_try_with_variations` (services/geocode.py, lines 202-223): the
stripped text itself, plus nine country-suffixed variants when the text
contains no comma. -/
def _try_with_variations (location_name : String) : List String :=
  let location_clean := pyStrip location_name
  if location_clean.data.contains ',' then [location_clean]
  else
    [location_clean,
      location_clean ++ ", India",
      location_clean ++ ", USA",
      location_clean ++ ", United States",
      location_clean ++ ", UK",
      location_clean ++ ", United Kingdom",
      location_clean ++ ", Canada",
      location_clean ++ ", Australia",
      location_clean ++ ", Germany",
      location_clean ++ ", France"]

/-- One geocoding provider: each `_geocode_*` helper catches its own
exceptions and returns a result dictionary or `None`. -/
abbrev GeocoderFun := String → Option GeoResult

/-- Provider list construction of `geocode_location` (lines 259-268):
the paid Google geocoder first when an API key is configured, then the
three free providers in order. -/
def build_geocoders (google : Option GeocoderFun)
    (openmeteo nominatim geocodexyz : GeocoderFun) : List GeocoderFun :=
  (match google with
    | some g => [g]
    | none => []) ++ [openmeteo, nominatim, geocodexyz]

/-- Inner loop of `geocode_location`: try each geocoder on one
variation, returning the first hit. -/
def try_geocoders (geocoders : List GeocoderFun) (variation : String) :
    Option GeoResult :=
  match geocoders with
  | [] => none
  | g :: rest =>
    match g variation with
    | some result => some result
    | none => try_geocoders rest variation

/-- Outer loop of `geocode_location`: for each variation in order, try
all geocoders; return the first hit over this variation-major order. -/
def try_variations_list (geocoders : List GeocoderFun) :
    List String → Option GeoResult
  | [] => none
  | v :: rest =>
    match try_geocoders geocoders v with
    | some result => some result
    | none => try_variations_list geocoders rest

/-- The two failure messages `geocode_location` can raise. -/
inductive GeocodeFailure
  | emptyName (msg : String)
  | notFound (msg : String)

/-- Message of the empty-input ValueError (line 250). -/
def emptyNameMsg : String := "Location name cannot be empty"

/-- Fixed tail of the all-providers-failed message (lines 291-298),
carrying the actionable guidance list. -/
def guidanceTail : String :=
  " using any geocoding service. Please try: a more specific address, including the country name, checking spelling, or trying a nearby landmark or city"

/-- The all-providers-failed ValueError message. -/
def notFoundMsg (location_clean : String) : String :=
  "Could not find location " ++ location_clean ++ guidanceTail

/-- `geocode_location` (services/geocode.py, lines 226-300). -/
def geocode_location (geocoders : List GeocoderFun) (location_name : String) :
    Except GeocodeFailure GeoResult :=
  let location_clean := pyStrip location_name
  if location_clean == "" then
    Except.error (GeocodeFailure.emptyName emptyNameMsg)
  else
    match try_variations_list geocoders (_try_with_variations location_clean) with
    | some result => Except.ok result
    | none => Except.error (GeocodeFailure.notFound (notFoundMsg location_clean))

/-- First hit in a list of provider answers. -/
def firstSome : List (Option GeoResult) → Option GeoResult
  | [] => none
  | none :: rest => firstSome rest
  | some r :: _ => some r

/-- The flattened variation-major attempt order actually used by
`geocode_location`: all geocoders on the first variation, then all
geocoders on the second, and so on. -/
def variant_major_order (geocoders : List GeocoderFun)
    (variations : List String) : List (Option GeoResult) :=
  (variations.map (fun v => geocoders.map (fun g => g v))).flatten

/-- Follows the claim wording only (provider-major order): for each
provider in priority order, try the original text plus all variants, and
return the first hit.  Stated for comparison with `geocode_location`. -/
def try_variations_for_geocoder (g : GeocoderFun) :
    List String → Option GeoResult
  | [] => none
  | v :: rest =>
    match g v with
    | some result => some result
    | none => try_variations_for_geocoder g rest

/-- Provider-major scan, as the claim describes the order. -/
def provider_major_scan (geocoders : List GeocoderFun)
    (variations : List String) : Option GeoResult :=
  match geocoders with
  | [] => none
  | g :: rest =>
    match try_variations_for_geocoder g variations with
    | some result => some result
    | none => provider_major_scan rest variations

/-- Geocoding with the attempt order the claim describes
(provider-major); only the scan order differs from `geocode_location`. -/
def geocode_location_provider_major (geocoders : List GeocoderFun)
    (location_name : String) : Except GeocodeFailure GeoResult :=
  let location_clean := pyStrip location_name
  if location_clean == "" then
    Except.error (GeocodeFailure.emptyName emptyNameMsg)
  else
    match provider_major_scan geocoders (_try_with_variations location_clean) with
    | some result => Except.ok result
    | none => Except.error (GeocodeFailure.notFound (notFoundMsg location_clean))

/-- Substring occurrence test over character lists. -/
def hasSubtext (needle : List Char) : List Char → Bool
  | [] => needle.isEmpty
  | c :: rest => needle.isPrefixOf (c :: rest) || hasSubtext needle rest

/-- Whether a failure message carries the actionable guidance text. -/
def containsGuidance (msg : String) : Bool :=
  hasSubtext "Please try".data msg.data

/-! ## Helper lemmas for the geocoding scan order -/

theorem firstSome_append (l1 l2 : List (Option GeoResult)) :
    firstSome (l1 ++ l2) =
      match firstSome l1 with
      | some r => some r
      | none => firstSome l2 := by
  induction l1 with
  | nil => rfl
  | cons o rest ih =>
    cases o with
    | some r => rfl
    | none => simpa [firstSome] using ih

theorem try_geocoders_eq_firstSome (geocoders : List GeocoderFun) (v : String) :
    try_geocoders geocoders v = firstSome (geocoders.map (fun g => g v)) := by
  induction geocoders with
  | nil => rfl
  | cons g rest ih =>
    cases hg : g v with
    | none => simp [try_geocoders, firstSome, hg, ih]
    | some r => simp [try_geocoders, firstSome, hg]

theorem try_variations_eq_firstSome (geocoders : List GeocoderFun)
    (vs : List String) :
    try_variations_list geocoders vs
      = firstSome (variant_major_order geocoders vs) := by
  induction vs with
  | nil => rfl
  | cons v rest ih =>
    rw [variant_major_order, List.map_cons, List.flatten_cons, firstSome_append]
    rw [← try_geocoders_eq_firstSome]
    have hrest : firstSome ((rest.map (fun v => geocoders.map (fun g => g v))).flatten)
        = try_variations_list geocoders rest := by
      rw [ih, variant_major_order]
    rw [hrest]
    cases h : try_geocoders geocoders v <;> simp [try_variations_list, h]

theorem hasSubtext_append_right (needle l1 l2 : List Char)
    (h : hasSubtext needle l2 = true) :
    hasSubtext needle (l1 ++ l2) = true := by
  induction l1 with
  | nil => simpa using h
  | cons c rest ih =>
    rw [List.cons_append, hasSubtext, ih, Bool.or_true]

theorem containsGuidance_notFoundMsg (location_clean : String) :
    containsGuidance (notFoundMsg location_clean) = true := by
  rw [containsGuidance, notFoundMsg]
  rw [String.data_append, String.data_append, List.append_assoc]
  refine hasSubtext_append_right _ _ _ ?_
  refine hasSubtext_append_right _ _ _ ?_
  decide

/-! ## Claim theorems for services/geocode.py -/

/-- C6 counterexample: the whitespace-only query is a non-empty string,
yet `geocode_location` fails on it with the empty-name error, whose
message carries no guidance text; so the stated dichotomy misses this
third outcome. -/
theorem geocode_location_whitespace_cex :
    (" " : String) ≠ "" ∧
    geocode_location [fun _ => none] " "
      = Except.error (GeocodeFailure.emptyName emptyNameMsg) ∧
    containsGuidance emptyNameMsg = false := by
  exact ⟨by decide, rfl, by decide⟩

/-- C6 amended: for every query that is non-empty after stripping
whitespace, `geocode_location` either returns the first coordinate-bearing
provider result, or fails with the NotFound error whose message contains
the actionable guidance text; there is no third outcome. -/
theorem geocode_location_dichotomy (geocoders : List GeocoderFun)
    (location_name : String) (h : pyStrip location_name ≠ "") :
    (∃ g, geocode_location geocoders location_name = Except.ok g ∧
        try_variations_list geocoders
          (_try_with_variations (pyStrip location_name)) = some g) ∨
    (geocode_location geocoders location_name
        = Except.error (GeocodeFailure.notFound (notFoundMsg (pyStrip location_name))) ∧
      containsGuidance (notFoundMsg (pyStrip location_name)) = true) := by
  have hne : (pyStrip location_name == "") = false := by
    simpa using h
  rw [geocode_location]
  simp only [hne, Bool.false_eq_true, if_false]
  cases hscan : try_variations_list geocoders
      (_try_with_variations (pyStrip location_name)) with
  | some g => exact Or.inl ⟨g, rfl, rfl⟩
  | none => exact Or.inr ⟨rfl, containsGuidance_notFoundMsg _⟩

/-- C6 witness: with a single always-failing provider, the query Pune
resolves to the NotFound error carrying the guidance text. -/
theorem geocode_location_dichotomy_witness :
    (∃ g, geocode_location [fun _ => none] "Pune" = Except.ok g ∧
        try_variations_list [fun _ => none]
          (_try_with_variations (pyStrip "Pune")) = some g) ∨
    (geocode_location [fun _ => none] "Pune"
        = Except.error (GeocodeFailure.notFound (notFoundMsg (pyStrip "Pune"))) ∧
      containsGuidance (notFoundMsg (pyStrip "Pune")) = true) :=
  geocode_location_dichotomy [fun _ => none] "Pune" (by decide)

/-- A provider that only answers the India-suffixed variant. -/
def providerIndiaOnly : GeocoderFun :=
  fun s => if s == "X, India" then some ⟨"A", some "India", 10, 10, none⟩ else none

/-- A provider that answers the original text. -/
def providerOriginal : GeocoderFun :=
  fun s => if s == "X" then some ⟨"B", some "USA", 20, 20, none⟩ else none

/-- C7 counterexample: with the first-priority provider answering only
the India-suffixed variant and the second-priority provider answering
the original text, the code (variation-major scan) returns the
second provider's result, while the claimed provider-major order would
return the first provider's; the two results differ. -/
theorem geocode_location_order_cex :
    geocode_location [providerIndiaOnly, providerOriginal] "X"
      = Except.ok ⟨"B", some "USA", 20, 20, none⟩ ∧
    geocode_location_provider_major [providerIndiaOnly, providerOriginal] "X"
      = Except.ok ⟨"A", some "India", 10, 10, none⟩ ∧
    ("A", (10 : ℚ)) ≠ ("B", (20 : ℚ)) := by
  refine ⟨rfl, rfl, ?_⟩
  intro hc
  have := congrArg Prod.fst hc
  simp at this

/-- C7 amended: the code tries the variations in order (the stripped
text first, then the country-suffixed variants, generated only when the
text contains no comma), and for each variation tries the providers in
priority order (paid geocoder first when configured); the result is the
first hit over this variation-major iteration order. -/
theorem geocode_location_variant_major (geocoders : List GeocoderFun)
    (location_name : String) (h : pyStrip location_name ≠ "") :
    (geocode_location geocoders location_name =
      match firstSome (variant_major_order geocoders
          (_try_with_variations (pyStrip location_name))) with
      | some result => Except.ok result
      | none => Except.error
          (GeocodeFailure.notFound (notFoundMsg (pyStrip location_name)))) ∧
    (∀ g openmeteo nominatim geocodexyz,
      build_geocoders (some g) openmeteo nominatim geocodexyz
        = [g, openmeteo, nominatim, geocodexyz]) ∧
    (∀ openmeteo nominatim geocodexyz,
      build_geocoders none openmeteo nominatim geocodexyz
        = [openmeteo, nominatim, geocodexyz]) ∧
    (∀ s : String, (pyStrip s).data.contains ',' = true →
      _try_with_variations s = [pyStrip s]) ∧
    (∀ s : String, (pyStrip s).data.contains ',' = false →
      _try_with_variations s =
        [pyStrip s,
          pyStrip s ++ ", India",
          pyStrip s ++ ", USA",
          pyStrip s ++ ", United States",
          pyStrip s ++ ", UK",
          pyStrip s ++ ", United Kingdom",
          pyStrip s ++ ", Canada",
          pyStrip s ++ ", Australia",
          pyStrip s ++ ", Germany",
          pyStrip s ++ ", France"]) := by
  refine ⟨?_, fun _ _ _ _ => rfl, fun _ _ _ => rfl, ?_, ?_⟩
  · have hne : (pyStrip location_name == "") = false := by
      simpa using h
    rw [geocode_location]
    simp only [hne, Bool.false_eq_true, if_false]
    rw [try_variations_eq_firstSome]
  · intro s hcomma
    rw [_try_with_variations]
    simp only [hcomma, if_true]
  · intro s hcomma
    rw [_try_with_variations]
    simp only [hcomma, Bool.false_eq_true, if_false]

/-- C7 witness: the priority order with a configured paid geocoder puts
it first, instantiated at concrete providers. -/
theorem geocode_location_variant_major_witness :
    build_geocoders (some providerIndiaOnly) providerOriginal
        providerOriginal providerOriginal
      = [providerIndiaOnly, providerOriginal, providerOriginal, providerOriginal] :=
  (geocode_location_variant_major [providerOriginal] "X" (by decide)).2.1
    providerIndiaOnly providerOriginal providerOriginal providerOriginal

/-! ## services/reverse_geocode.py -/

/-- Result dictionary of the reverse geocoders. -/
structure ReverseGeoResult where
  name : String
  display_name : String
  country : Option String
  city : Option String
  latitude : ℚ
  longitude : ℚ

/-- One reverse-geocoding provider: each helper catches its own
exceptions and returns a dictionary or `None`. -/
abbrev ReverseGeocoderFun := ℚ → ℚ → Option ReverseGeoResult

/-- Provider list construction of `reverse_geocode` (lines 172-181):
Nominatim, with Google inserted first when a key is configured and
Open-Meteo appended as the last fallback. -/
def build_reverse_geocoders (google : Option ReverseGeocoderFun)
    (nominatim openmeteo : ReverseGeocoderFun) : List ReverseGeocoderFun :=
  (match google with
    | some g => [g]
    | none => []) ++ [nominatim, openmeteo]

/-- Provider loop of `reverse_geocode` (lines 183-191): first hit wins;
provider exceptions are caught and treated as misses. -/
def try_reverse_geocoders (geocoders : List ReverseGeocoderFun)
    (lat lon : ℚ) : Option ReverseGeoResult :=
  match geocoders with
  | [] => none
  | g :: rest =>
    match g lat lon with
    | some result => some result
    | none => try_reverse_geocoders rest lat lon

/-- Round half to even, as Python float formatting does. -/
def roundHalfEven (q : ℚ) : ℤ :=
  let f := ⌊q⌋
  let frac := q - f
  if frac < 1 / 2 then f
  else if 1 / 2 < frac then f + 1
  else if f % 2 = 0 then f else f + 1

/-- Left-pad a digit string with zeros to 4 characters. -/
def padZeros4 (s : String) : String :=
  ⟨List.replicate (4 - s.data.length) '0'⟩ ++ s

/-- Python `f-string` formatting to 4 decimal places. -/
def fmt4 (q : ℚ) : String :=
  let n := roundHalfEven (q * 10000)
  let a := n.natAbs
  (if q < 0 then "-" else "")
    ++ toString (a / 10000) ++ "." ++ padZeros4 (toString (a % 10000))

/-- The coordinates-as-name fallback string of `reverse_geocode`
(line 195). -/
def coordDisplay (lat lon : ℚ) : String := fmt4 lat ++ ", " ++ fmt4 lon

/-- `reverse_geocode` (services/reverse_geocode.py, lines 159-201):
first provider hit, else the formatted-coordinates fallback dictionary;
a total function — no path raises. -/
def reverse_geocode (geocoders : List ReverseGeocoderFun)
    (lat lon : ℚ) : ReverseGeoResult :=
  match try_reverse_geocoders geocoders lat lon with
  | some result => result
  | none =>
      ⟨coordDisplay lat lon, coordDisplay lat lon, none, none, lat, lon⟩

theorem try_reverse_geocoders_all_none {geocoders : List ReverseGeocoderFun}
    {lat lon : ℚ} (h : ∀ g ∈ geocoders, g lat lon = none) :
    try_reverse_geocoders geocoders lat lon = none := by
  induction geocoders with
  | nil => rfl
  | cons g rest ih =>
    have hg : g lat lon = none := h g (List.mem_cons_self g rest)
    rw [try_reverse_geocoders, hg]
    exact ih (fun g' hg' => h g' (List.mem_cons_of_mem g hg'))

/-- C8: for every coordinate pair within real-world bounds,
`reverse_geocode` is total (it returns a plain result on every path),
and when every provider fails it returns the degraded-display fallback
whose name is the coordinates formatted to four decimal places as
"lat, lon". -/
theorem reverse_geocode_total_fallback (geocoders : List ReverseGeocoderFun)
    (lat lon : ℚ) (hlat1 : -90 ≤ lat) (hlat2 : lat ≤ 90)
    (hlon1 : -180 ≤ lon) (hlon2 : lon ≤ 180)
    (hall : ∀ g ∈ geocoders, g lat lon = none) :
    reverse_geocode geocoders lat lon
      = ⟨coordDisplay lat lon, coordDisplay lat lon, none, none, lat, lon⟩ ∧
    (reverse_geocode geocoders lat lon).name = fmt4 lat ++ ", " ++ fmt4 lon := by
  have h := try_reverse_geocoders_all_none hall
  rw [reverse_geocode, h]
  exact ⟨rfl, rfl⟩

/-- Evaluation of the formatter at 0. -/
theorem fmt4_zero : fmt4 0 = "0.0000" := by
  have h0 : roundHalfEven ((0 : ℚ) * 10000) = 0 := by
    rw [roundHalfEven]
    norm_num
  rw [fmt4, h0]
  norm_num
  rfl

/-- C8 witness: the open-ocean point (0, 0) with no provider answering
yields the fallback whose resolved name is the formatted string
0.0000, 0.0000. -/
theorem reverse_geocode_total_fallback_witness :
    reverse_geocode [] 0 0
      = ⟨coordDisplay 0 0, coordDisplay 0 0, none, none, 0, 0⟩ ∧
    (reverse_geocode [] 0 0).name = "0.0000, 0.0000" := by
  have h := reverse_geocode_total_fallback [] 0 0 (by norm_num) (by norm_num)
    (by norm_num) (by norm_num) (by simp)
  refine ⟨h.1, h.2.trans ?_⟩
  rw [fmt4_zero]
  rfl

/-! ## services/geocode_autocomplete.py -/

/-- One autocomplete candidate; the provider helpers only emit
candidates that carry coordinates. -/
structure Suggestion where
  display_name : String
  name : String
  country : Option String
  latitude : ℚ
  longitude : ℚ
  source : Option String

/-- `autocomplete_openmeteo` (lines 15-64): at most `limit` candidates
from the raw provider answer (`results[:limit]`). -/
def autocomplete_openmeteo (raw : List Suggestion) (limit : ℕ) :
    List Suggestion := raw.take limit

/-- `autocomplete_nominatim` (lines 67-112): at most `limit` candidates
(`data[:limit]`). -/
def autocomplete_nominatim (raw : List Suggestion) (limit : ℕ) :
    List Suggestion := raw.take limit

/-- `autocomplete_google_maps` (lines 115-176): empty without an API
key, otherwise at most `limit` candidates (`predictions[:limit]`). -/
def autocomplete_google_maps (api_key : Option String)
    (raw : List Suggestion) (limit : ℕ) : List Suggestion :=
  if api_key.isSome then raw.take limit else []

/-- The 3-decimal-place rounded coordinate pair used as the
deduplication key (line 226), kept as integer thousandths. -/
def coordKey (s : Suggestion) : ℤ × ℤ :=
  (roundHalfEven (s.latitude * 1000), roundHalfEven (s.longitude * 1000))

/-- Candidate collection of `get_autocomplete_suggestions`
(lines 197-212): Open-Meteo first, Nominatim when still short of the
limit, Google when a key is configured and still short. -/
def collectSuggestions (openmeteo_raw nominatim_raw google_raw : List Suggestion)
    (api_key : Option String) (limit : ℕ) : List Suggestion :=
  let all1 := autocomplete_openmeteo openmeteo_raw limit
  let all2 :=
    if all1.length < limit then all1 ++ autocomplete_nominatim nominatim_raw limit
    else all1
  if api_key.isSome && all2.length < limit then
    all2 ++ autocomplete_google_maps api_key google_raw limit
  else all2

/-- Deduplication loop of `get_autocomplete_suggestions`
(lines 214-233): skip seen coordinate keys, append otherwise, and break
as soon as the output reaches the limit. -/
def dedupTake (limit : ℕ) : ℕ → List (ℤ × ℤ) → List Suggestion → List Suggestion
  | _, _, [] => []
  | count, seen, s :: rest =>
    if coordKey s ∈ seen then dedupTake limit count seen rest
    else if limit ≤ count + 1 then [s]
    else s :: dedupTake limit (count + 1) (coordKey s :: seen) rest

/-- `get_autocomplete_suggestions` (lines 179-235). -/
def get_autocomplete_suggestions
    (openmeteo_raw nominatim_raw google_raw : List Suggestion)
    (api_key : Option String) (query : String) (limit : ℕ) : List Suggestion :=
  if (pyStrip query).data.length < 2 then []
  else
    dedupTake limit 0 []
      (collectSuggestions openmeteo_raw nominatim_raw google_raw api_key limit)

/-- Unbounded first-seen deduplication, for specification purposes. -/
def dedupAll : List (ℤ × ℤ) → List Suggestion → List Suggestion
  | _, [] => []
  | seen, s :: rest =>
    if coordKey s ∈ seen then dedupAll seen rest
    else s :: dedupAll (coordKey s :: seen) rest

/-! ## Helper lemmas about the deduplication loop -/

theorem dedupTake_eq_take_dedupAll (limit : ℕ) :
    ∀ (l : List Suggestion) (count : ℕ) (seen : List (ℤ × ℤ)),
      count < limit →
      dedupTake limit count seen l = (dedupAll seen l).take (limit - count) := by
  intro l
  induction l with
  | nil => intro count seen _; simp [dedupTake, dedupAll]
  | cons s rest ih =>
    intro count seen hcount
    by_cases hmem : coordKey s ∈ seen
    · rw [dedupTake, if_pos hmem, dedupAll, if_pos hmem]
      exact ih count seen hcount
    · rw [dedupTake, if_neg hmem, dedupAll, if_neg hmem]
      have hlc : limit - count = (limit - (count + 1)) + 1 := by omega
      rw [hlc, List.take_succ_cons]
      by_cases hlim : limit ≤ count + 1
      · rw [if_pos hlim]
        have hz : limit - (count + 1) = 0 := by omega
        rw [hz, List.take_zero]
      · rw [if_neg hlim]
        rw [ih (count + 1) (coordKey s :: seen) (by omega)]

theorem dedupAll_nodup_keys :
    ∀ (l : List Suggestion) (seen : List (ℤ × ℤ)),
      ((dedupAll seen l).map coordKey).Nodup ∧
      ∀ s ∈ dedupAll seen l, coordKey s ∉ seen := by
  intro l
  induction l with
  | nil => intro seen; simp [dedupAll]
  | cons s rest ih =>
    intro seen
    by_cases hmem : coordKey s ∈ seen
    · rw [dedupAll, if_pos hmem]
      exact ih seen
    · rw [dedupAll, if_neg hmem]
      have ihs := ih (coordKey s :: seen)
      constructor
      · rw [List.map_cons]
        refine List.nodup_cons.mpr ⟨?_, ihs.1⟩
        intro hc
        rcases List.mem_map.mp hc with ⟨t, ht, hkey⟩
        exact (ihs.2 t ht) (hkey ▸ List.mem_cons_self _ _)
      · intro t ht
        rcases List.mem_cons.mp ht with ht | ht
        · exact ht ▸ hmem
        · intro hc
          exact (ihs.2 t ht) (List.mem_cons_of_mem _ hc)

theorem dedupAll_first_occurrence :
    ∀ (l : List Suggestion) (seen : List (ℤ × ℤ)) (s : Suggestion),
      s ∈ dedupAll seen l →
      coordKey s ∉ seen ∧
      ∃ l1 l2, l = l1 ++ s :: l2 ∧ ∀ t ∈ l1, coordKey t ≠ coordKey s := by
  intro l
  induction l with
  | nil => intro seen s h; simp [dedupAll] at h
  | cons u rest ih =>
    intro seen s h
    by_cases hmem : coordKey u ∈ seen
    · rw [dedupAll, if_pos hmem] at h
      obtain ⟨hnot, l1, l2, heq, hne⟩ := ih seen s h
      refine ⟨hnot, u :: l1, l2, by rw [heq, List.cons_append], ?_⟩
      intro t ht
      rcases List.mem_cons.mp ht with ht | ht
      · subst ht
        intro hc
        exact hnot (hc ▸ hmem)
      · exact hne t ht
    · rw [dedupAll, if_neg hmem] at h
      rcases List.mem_cons.mp h with h | h
      · subst h
        exact ⟨hmem, [], rest, rfl, by simp⟩
      · obtain ⟨hnot, l1, l2, heq, hne⟩ := ih (coordKey u :: seen) s h
        have hnots : coordKey s ∉ seen :=
          fun hc => hnot (List.mem_cons_of_mem _ hc)
        have hnotu : coordKey s ≠ coordKey u :=
          fun hc => hnot (hc ▸ List.mem_cons_self _ _)
        refine ⟨hnots, u :: l1, l2, by rw [heq, List.cons_append], ?_⟩
        intro t ht
        rcases List.mem_cons.mp ht with ht | ht
        · subst ht
          exact fun hc => hnotu hc.symm
        · exact hne t ht

theorem collectSuggestions_limit_zero
    (openmeteo_raw nominatim_raw google_raw : List Suggestion)
    (api_key : Option String) :
    collectSuggestions openmeteo_raw nominatim_raw google_raw api_key 0 = [] := by
  simp [collectSuggestions, autocomplete_openmeteo]

/-- C9: in the suggestion list returned by
`get_autocomplete_suggestions`, any two candidates with the same
3-decimal-place rounded coordinates appear at most once, the retained
entry for each key is the earliest-seen one in provider-priority
collection order, the list never exceeds the requested limit, and
(for accepted queries and a positive limit) the output is exactly the
first-seen deduplication of the collected candidates cut off at the
limit. -/
theorem get_autocomplete_suggestions_dedup
    (openmeteo_raw nominatim_raw google_raw : List Suggestion)
    (api_key : Option String) (query : String) (limit : ℕ) :
    ((get_autocomplete_suggestions openmeteo_raw nominatim_raw google_raw
        api_key query limit).map coordKey).Nodup ∧
    (get_autocomplete_suggestions openmeteo_raw nominatim_raw google_raw
        api_key query limit).length ≤ limit ∧
    (∀ s ∈ get_autocomplete_suggestions openmeteo_raw nominatim_raw google_raw
        api_key query limit,
      ∃ l1 l2,
        collectSuggestions openmeteo_raw nominatim_raw google_raw api_key limit
          = l1 ++ s :: l2 ∧
        ∀ t ∈ l1, coordKey t ≠ coordKey s) ∧
    (2 ≤ (pyStrip query).data.length → 1 ≤ limit →
      get_autocomplete_suggestions openmeteo_raw nominatim_raw google_raw
          api_key query limit
        = (dedupAll [] (collectSuggestions openmeteo_raw nominatim_raw
            google_raw api_key limit)).take limit) := by
  by_cases hq : (pyStrip query).data.length < 2
  · have hout : get_autocomplete_suggestions openmeteo_raw nominatim_raw
        google_raw api_key query limit = [] := by
      rw [get_autocomplete_suggestions, if_pos hq]
    rw [hout]
    refine ⟨by simp, by simp, by simp, ?_⟩
    intro h2 _
    omega
  · have hout : get_autocomplete_suggestions openmeteo_raw nominatim_raw
        google_raw api_key query limit
          = dedupTake limit 0 [] (collectSuggestions openmeteo_raw
              nominatim_raw google_raw api_key limit) := by
      rw [get_autocomplete_suggestions, if_neg hq]
    rcases Nat.eq_zero_or_pos limit with hlim | hlim
    · subst hlim
      rw [hout, collectSuggestions_limit_zero]
      refine ⟨by simp [dedupTake], by simp [dedupTake], by simp [dedupTake], ?_⟩
      intro _ h1
      omega
    · have heq : dedupTake limit 0 []
          (collectSuggestions openmeteo_raw nominatim_raw google_raw api_key limit)
            = (dedupAll [] (collectSuggestions openmeteo_raw nominatim_raw
                google_raw api_key limit)).take limit := by
        have h := dedupTake_eq_take_dedupAll limit
          (collectSuggestions openmeteo_raw nominatim_raw google_raw api_key limit)
          0 [] hlim
        simpa using h
      rw [hout, heq]
      refine ⟨?_, ?_, ?_, fun _ _ => rfl⟩
      · rw [List.map_take]
        exact ((List.map coordKey _).take_sublist limit).nodup
          (dedupAll_nodup_keys (collectSuggestions openmeteo_raw nominatim_raw
            google_raw api_key limit) []).1
      · have h := List.length_take limit (dedupAll []
          (collectSuggestions openmeteo_raw nominatim_raw google_raw api_key limit))
        omega
      · intro s hs
        have hs' : s ∈ dedupAll [] (collectSuggestions openmeteo_raw
            nominatim_raw google_raw api_key limit) :=
          List.take_subset _ _ hs
        obtain ⟨_, l1, l2, heq2, hne⟩ :=
          dedupAll_first_occurrence _ [] s hs'
        exact ⟨l1, l2, heq2, hne⟩

/-- A concrete candidate used to instantiate the autocomplete theorem. -/
def sampleSuggestion : Suggestion :=
  ⟨"Pune, Maharashtra, India", "Pune", some "India", 18, 73, some "Open-Meteo"⟩

/-- C9 witness: concrete instantiation of the deduplication theorem. -/
theorem get_autocomplete_suggestions_dedup_witness :
    ((get_autocomplete_suggestions [sampleSuggestion] [] [] none "pu" 5).map
        coordKey).Nodup ∧
    (get_autocomplete_suggestions [sampleSuggestion] [] [] none "pu" 5).length ≤ 5 ∧
    get_autocomplete_suggestions [sampleSuggestion] [] [] none "pu" 5
      = (dedupAll [] (collectSuggestions [sampleSuggestion] [] [] none 5)).take 5 := by
  have h := get_autocomplete_suggestions_dedup [sampleSuggestion] [] [] none "pu" 5
  exact ⟨h.1, h.2.1, h.2.2.2 (by decide) (by decide)⟩

end Backend
